import Mathlib

/-!
Verification of the pypgwire wire-protocol codec and connection state machine

A shallow embedding in Lean 4 of the `pypgwire` Python repository:

* `src/pypgwire/protocol/backend.py` — backend message encoders, including the
  base-10000 `NUMERIC` (OID 1700) binary encoder `_encode_numeric`;
* `src/pypgwire/protocol/frontend.py` — the streaming frontend decoder;
* `src/pypgwire/handler.py` — the query/startup handler (`GeneratorHandler`);
* `src/pypgwire/server.py` — the per-message dispatch `PostgresProtocol._handle_message`.

Python `struct.pack`/`struct.unpack` check ranges and buffer sizes and raise
`struct.error` on violation; this is modelled by `Except`/`Option` results.
Machine integers are modelled as `Nat`/`Int` with explicit range guards where
CPython checks them.
-/

namespace PyPgWire

/-- Python exception kinds raised by the modelled code paths. -/
inductive PyErr where
  | typeError
  | valueError
  | notImplementedError
  | structError
  | indexError
  | keyError
  | unicodeDecodeError
  deriving DecidableEq, Repr

/-! ## struct.pack / byte-level helpers

All wire bytes are modelled as `List ℕ` with entries `< 256`.
-/

/-- The four big-endian bytes of an unsigned 32-bit value (`struct.pack('>I', n)`'s
payload, for in-range `n`). -/
def u32be (n : ℕ) : List ℕ :=
  [n / 2 ^ 24 % 256, n / 2 ^ 16 % 256, n / 2 ^ 8 % 256, n % 256]

/-- Python `struct.pack('>I', n)` for a non-negative Python int: range-checked. -/
def packU32 (n : ℕ) : Except PyErr (List ℕ) :=
  if n < 2 ^ 32 then .ok (u32be n) else .error .structError

/-- Python `struct.pack('>I', z)` for a possibly negative Python int (CPython raises
`struct.error` for any argument outside `0 .. 2^32-1`, in particular for `-1`). -/
def packU32ofInt (z : ℤ) : Except PyErr (List ℕ) :=
  if 0 ≤ z ∧ z < 2 ^ 32 then .ok (u32be z.toNat) else .error .structError

/-- Python `struct.pack('>H', n)`: unsigned 16-bit, big-endian. -/
def packU16 (n : ℕ) : Except PyErr (List ℕ) :=
  if n < 2 ^ 16 then .ok [n / 256 % 256, n % 256] else .error .structError

/-- Python `struct.pack('>B', n)`: unsigned 8-bit. -/
def packU8 (n : ℕ) : Except PyErr (List ℕ) :=
  if n < 256 then .ok [n] else .error .structError

/-- Python `struct.pack('>h', z)`: signed 16-bit big-endian, two's complement,
range-checked (`-32768 ≤ z ≤ 32767`). -/
def packI16 (z : ℤ) : Except PyErr (List ℕ) :=
  if -32768 ≤ z ∧ z < 32768 then
    .ok [((z % 65536).toNat) / 256 % 256, ((z % 65536).toNat) % 256]
  else .error .structError

/-- Python `struct.pack('>i', z)`: signed 32-bit big-endian, range-checked. -/
def packI32 (z : ℤ) : Except PyErr (List ℕ) :=
  if -(2 ^ 31) ≤ z ∧ z < 2 ^ 31 then .ok (u32be ((z % 2 ^ 32).toNat)) else .error .structError

/-- Python `struct.pack('>q', z)`: signed 64-bit big-endian, range-checked. -/
def packI64 (z : ℤ) : Except PyErr (List ℕ) :=
  if -(2 ^ 63) ≤ z ∧ z < 2 ^ 63 then
    .ok (u32be ((z % 2 ^ 64).toNat / 2 ^ 32) ++ u32be ((z % 2 ^ 64).toNat % 2 ^ 32))
  else .error .structError

/-! ## Python `str` helpers

Modelled over the character list of the Lean `String` (ASCII-exact; the
queries and parameter strings of this system are ASCII). -/

/-- Python `\s` / `str.strip()` whitespace on ASCII input:
space, `\t`, `\n`, `\r`, `\v`, `\f`. -/
def isPySpace (c : Char) : Bool :=
  c == ' ' || c == '\t' || c == '\n' || c == '\r' || c == Char.ofNat 11 || c == Char.ofNat 12

/-- Python `str.strip()`. -/
def pyStrip (s : String) : String :=
  String.mk (((s.data.dropWhile isPySpace).reverse.dropWhile isPySpace).reverse)

/-- Python `str.upper()` (ASCII). -/
def pyUpper (s : String) : String :=
  String.mk (s.data.map Char.toUpper)

/-- Python `str.lower()` (ASCII). -/
def pyLower (s : String) : String :=
  String.mk (s.data.map Char.toLower)

/-- Python `str.startswith(pre)`. -/
def pyStartsWith (s pre : String) : Bool :=
  s.data.take pre.data.length == pre.data

/-- The UTF-8 encoding of one code point. -/
def utf8Char (c : Char) : List ℕ :=
  let n := c.toNat
  if n < 0x80 then [n]
  else if n < 0x800 then
    [0xC0 + n / 64, 0x80 + n % 64]
  else if n < 0x10000 then
    [0xE0 + n / 4096, 0x80 + n / 64 % 64, 0x80 + n % 64]
  else
    [0xF0 + n / 262144, 0x80 + n / 4096 % 64, 0x80 + n / 64 % 64, 0x80 + n % 64]

/-- UTF-8 bytes of a string (`s.encode('utf-8')`). -/
def utf8Bytes (s : String) : List ℕ :=
  s.data.flatMap utf8Char

/-- A NUL-terminated UTF-8 cstring. -/
def cstring (s : String) : List ℕ :=
  utf8Bytes s ++ [0]

/-! ## The Decimal data model

`src/pypgwire/fake_db.py` and `backend.py` work with Python `Decimal` values.
A `Decimal` is a sign, a non-negative integer coefficient and a base-10
exponent, with NaN/Infinity special states (`spec.md` §3 "Decimal value"). -/

/-- Model of a Python `Decimal`: semantic value `(-1)^neg × coeff × 10^exp`
when finite; `isNan`/`isInf` model the special states. -/
structure Dec where
  neg : Bool
  coeff : ℕ
  exp : ℤ
  isNan : Bool
  isInf : Bool
  deriving DecidableEq, Repr

/-- Rational value of a finite Decimal: `(-1)^neg × coeff × 10^exp`. -/
def decValue (neg : Bool) (coeff : ℕ) (exp : ℤ) : ℚ :=
  (if neg then -1 else 1) * coeff * (10 : ℚ) ^ exp

/-! ## The NUMERIC field computation (`_encode_numeric`, backend.py lines 89–149)

The header/digit computation of `_encode_numeric` before byte serialisation. -/

/-- The emitted NUMERIC header fields and base-10000 digit list. -/
structure NumericRec where
  ndigits : ℕ
  weight : ℤ
  sign : ℕ
  dscale : ℕ
  digits : List ℕ
  deriving DecidableEq, Repr

/-- The source's leading-zero strip loop: `while digits10000 and digits10000[0] == 0:
digits10000.pop(0); weight -= 1` (backend.py lines 139–141). -/
def stripLeadingZeros : List ℕ → ℤ → List ℕ × ℤ
  | 0 :: ds, w => stripLeadingZeros ds (w - 1)
  | l, w => (l, w)

/-- The source's trailing-zero strip loop: `while digits10000 and
digits10000[-1] == 0: digits10000.pop()` (backend.py lines 142–143). -/
def stripTrailingZeros : List ℕ → List ℕ
  | [] => []
  | d :: ds =>
    let e := stripTrailingZeros ds
    if e = [] then (if d = 0 then [] else [d]) else d :: e

/-- The NUMERIC computation of `_encode_numeric` after coefficient/dscale
extraction (backend.py lines 113–149): −0 normalisation, base-10000 padding,
digit split (MSB first, as the source's divmod loop plus reverse, which is
`(Nat.digits 10000 ·).reverse`), and zero-group stripping. -/
def numericFieldsCore (signCode0 coefficient dscale : ℕ) : NumericRec :=
  let signCode := if coefficient = 0 then 0x0000 else signCode0
  let scaleGroups : ℕ := (dscale + 3) / 4
  let pad : ℕ := scaleGroups * 4 - dscale
  let coefficientAdj : ℕ := coefficient * 10 ^ pad
  let digits10000 : List ℕ := (Nat.digits 10000 coefficientAdj).reverse
  let weight0 : ℤ := if digits10000 = [] then 0 else (digits10000.length : ℤ) - scaleGroups - 1
  let s := stripLeadingZeros digits10000 weight0
  let digits2 := stripTrailingZeros s.1
  let weight2 : ℤ := if digits2 = [] then 0 else s.2
  { ndigits := digits2.length, weight := weight2, sign := signCode,
    dscale := dscale, digits := digits2 }

/-- The NUMERIC header/digit computation of `_encode_numeric` (backend.py
lines 89–149) for a finite Decimal `(neg, coeff, exp)`: the sign code from
`is_signed()`, the coefficient/dscale extraction of lines 106–111, then the
common pipeline `numericFieldsCore`. -/
def numericFields (neg : Bool) (coeff : ℕ) (exp : ℤ) : NumericRec :=
  numericFieldsCore
    (if neg then 0x4000 else 0x0000)
    (if 0 ≤ exp then coeff * 10 ^ exp.toNat else coeff)
    (if 0 ≤ exp then 0 else (-exp).toNat)

/-! ## Decoding semantics of the NUMERIC header + digits (the claim's semantics)

`value = sign × Σ_{i} digits[i] × 10000^(weight − i)` (spec.md §4.1). -/

/-- Spec semantics: `decodeVal digits w = Σ_i digits[i] * 10000^(w - i)` over ℚ. -/
def decodeVal : List ℕ → ℤ → ℚ
  | [], _ => 0
  | d :: ds, w => (d : ℚ) * (10000 : ℚ) ^ w + decodeVal ds (w - 1)

/-- Sign factor of the NUMERIC `sign` header field: `0x4000` is negative. -/
def signFactor (s : ℕ) : ℚ :=
  if s = 0x4000 then -1 else 1

/-! ## Byte-level value encoders (backend.py lines 58–153)

Each binary encoder returns a 4-byte big-endian length prefix followed by the
value payload, exactly as `DataRow.encode` expects. -/

/-- Python `struct.pack('>hhhh', a, b, c, d)`. -/
def pack4h (a b c d : ℤ) : Except PyErr (List ℕ) := do
  pure ((← packI16 a) ++ (← packI16 b) ++ (← packI16 c) ++ (← packI16 d))

/-- Encoder `_encode_int2` (backend.py line 58). -/
def _encode_int2 (v : ℤ) : Except PyErr (List ℕ) := do
  pure ((← packU32 2) ++ (← packI16 v))

/-- Encoder `_encode_int4` (backend.py line 62). -/
def _encode_int4 (v : ℤ) : Except PyErr (List ℕ) := do
  pure ((← packU32 4) ++ (← packI32 v))

/-- Encoder `_encode_int8` (backend.py line 66). -/
def _encode_int8 (v : ℤ) : Except PyErr (List ℕ) := do
  pure ((← packU32 8) ++ (← packI64 v))

/-- Encoder `_encode_numeric` (backend.py lines 74–153), byte level.  The NaN branch
executes `struct.pack('>hhhh', 0, 0, 0xC000, 0)`; `0xC000 = 49152` is outside
the signed 16-bit range that CPython's `'h'` format enforces, so that call
raises `struct.error`.  The Infinity branch raises `ValueError`.  The finite
branch serialises the `numericFields` record. -/
def _encode_numeric (v : Dec) : Except PyErr (List ℕ) :=
  if v.isNan then do
    let payload ← pack4h 0 0 0xC000 0
    pure ((← packU32 payload.length) ++ payload)
  else if v.isInf then .error .valueError
  else do
    let r := numericFields v.neg v.coeff v.exp
    let header ← pack4h (r.ndigits : ℤ) r.weight (r.sign : ℤ) (r.dscale : ℤ)
    let payload ← r.digits.foldlM (fun acc dd => do pure (acc ++ (← packI16 (dd : ℤ)))) header
    pure ((← packU32 payload.length) ++ payload)

/-! ## Row values

The value kinds the adapter yields (`spec.md` §3 "Row"): null, Python int,
text and Decimal.  IEEE-754 `float` values and their `'>d'` encoding are
outside this embedding (floating point is not modelled); no claim below
depends on float payload bytes. -/

inductive Value where
  | null
  | int (n : ℤ)
  | text (s : String)
  | dec (d : Dec)
  deriving DecidableEq, Repr

/-- Python `"%+d" % z`: a decimal rendering with an explicit sign. -/
def fmtPlusInt (z : ℤ) : String :=
  if 0 ≤ z then "+" ++ toString z else toString z

/-- Python `str()` of a `Decimal`, per the to-scientific-string algorithm of
CPython `_pydecimal.Decimal.__str__` (General Decimal Arithmetic). -/
def decToString (d : Dec) : String :=
  if d.isNan then (if d.neg then "-NaN" else "NaN")
  else if d.isInf then (if d.neg then "-Infinity" else "Infinity")
  else
    let sign := if d.neg then "-" else ""
    let digits := toString d.coeff
    let leftdigits : ℤ := d.exp + digits.length
    let dotplace : ℤ := if d.exp ≤ 0 ∧ -6 < leftdigits then leftdigits else 1
    let intpart :=
      if dotplace ≤ 0 then "0"
      else if (digits.length : ℤ) ≤ dotplace then
        digits ++ String.mk (List.replicate (dotplace.toNat - digits.length) '0')
      else String.mk (digits.data.take dotplace.toNat)
    let fracpart :=
      if dotplace ≤ 0 then "." ++ String.mk (List.replicate (-dotplace).toNat '0') ++ digits
      else if (digits.length : ℤ) ≤ dotplace then ""
      else "." ++ String.mk (digits.data.drop dotplace.toNat)
    let exppart := if leftdigits = dotplace then "" else "E" ++ fmtPlusInt (leftdigits - dotplace)
    sign ++ intpart ++ fracpart ++ exppart

/-- Python `str(value)` for the modelled value kinds. -/
def pyStr : Value → String
  | .null => "None"
  | .int n => toString n
  | .text s => s
  | .dec d => decToString d

/-- The `ENCODERS[oid](value)` dispatch (backend.py lines 156–162 and 269).
A missing OID raises `KeyError`; an encoder applied to a value of the wrong
kind raises `struct.error` inside `struct.pack` (for `'>h'/'>i'/'>q'/'>d'`
with a non-int/non-float argument) or `AttributeError`-like failures for
`_encode_numeric` on a non-Decimal.  OID 701 (`float8`) is included in the
dispatch but float values are outside this embedding, so every modelled value
kind fails its `struct.pack('>d', ...)` conversion or is not produced by the
adapter model. -/
def applyEncoder (oid : ℕ) (v : Value) : Except PyErr (List ℕ) :=
  if oid = 21 then (match v with | .int n => _encode_int2 n | _ => .error .structError)
  else if oid = 23 then (match v with | .int n => _encode_int4 n | _ => .error .structError)
  else if oid = 20 then (match v with | .int n => _encode_int8 n | _ => .error .structError)
  else if oid = 701 then .error .structError
  else if oid = 1700 then (match v with | .dec d => _encode_numeric d | _ => .error .typeError)
  else .error .keyError

/-! ## Field descriptors and `to_sqltype` (backend.py lines 164–196) -/

structure FieldDesc where
  name : String
  table_oid : ℕ
  column_attr : ℤ
  type_oid : ℕ
  type_size : ℤ
  type_mod : ℤ
  format : ℤ
  deriving DecidableEq, Repr

/-- The kinds the `typ ==` comparisons in `to_sqltype` distinguish. -/
inductive PyType where
  | int
  | float
  | decimal
  | other
  deriving DecidableEq, Repr

/-- The `elif typ == ...` chain of `to_sqltype` (schema absent or index out of
range). -/
def to_sqltype_typ (typ : Option PyType) (field_name : String) : FieldDesc :=
  match typ with
  | some .int => ⟨field_name, 0, 0, 23, 4, -1, 1⟩
  | some .float => ⟨field_name, 0, 0, 701, 8, -1, 1⟩
  | some .decimal => ⟨field_name, 0, 0, 1700, -1, -1, 1⟩
  | _ => ⟨field_name, 0, 0, 25, -1, -1, 0⟩

/-- Function `to_sqltype(index, field_name, schema, typ)` (backend.py lines 164–196). -/
def to_sqltype (schema : Option (List ℕ)) (typ : Option PyType) (index : ℕ)
    (field_name : String) : FieldDesc :=
  match schema with
  | some sc =>
    if index < sc.length then
      let oid := sc.getD index 0
      { name := field_name, table_oid := 0, column_attr := 0, type_oid := oid,
        type_size := -1, type_mod := -1,
        format := if oid = 20 ∨ oid = 21 ∨ oid = 23 ∨ oid = 701 ∨ oid = 1700 then 1 else 0 }
    else to_sqltype_typ typ field_name
  | none => to_sqltype_typ typ field_name

/-! ## Backend messages and their encoders (backend.py lines 198–345) -/

inductive BackendMessage where
  | authenticationOk
  | backendKeyData (pid key : ℕ)
  | readyForQuery (status : ℕ)
  | rowDescription (fields : List FieldDesc)
  | dataRow (values : List Value) (fields : List FieldDesc) (text_encoding : Bool)
  | errorResponse (severity code message : String)
  | commandComplete (rows : ℕ) (command : String)
  | parameterStatus (name value : String)
  | parseComplete
  | parameterDescription
  | bindComplete
  | emptyQueryResponse
  deriving DecidableEq, Repr

/-- The per-field payload loop of `RowDescription.encode` (backend.py
lines 229–244). -/
def rowDescData (fields : List FieldDesc) : Except PyErr (List ℕ) := do
  let init ← packU16 fields.length
  fields.foldlM (fun acc f => do
    pure (acc ++ cstring f.name ++ (← packU32 f.table_oid) ++ (← packI16 f.column_attr)
      ++ (← packU32 f.type_oid) ++ (← packI16 f.type_size)
      ++ (← packI32 f.type_mod) ++ (← packI16 f.format))) init

/-- The per-value payload loop of `DataRow.encode` (backend.py lines 254–270).
A `None` value executes `struct.pack('>I', -1)`; `'>I'` is the *unsigned*
32-bit format, for which CPython rejects `-1` with `struct.error`. -/
def dataRowData (values : List Value) (fields : List FieldDesc) (text_encoding : Bool) :
    Except PyErr (List ℕ) := do
  let init ← packU16 values.length
  values.enum.foldlM (fun acc iv =>
    match iv.2 with
    | .null => do pure (acc ++ (← packU32ofInt (-1)))
    | v => do
      let f ← (match fields[iv.1]? with
        | some f => Except.ok f
        | none => Except.error PyErr.indexError)
      if text_encoding || f.format == 0 then do
        let bs := utf8Bytes (pyStr v)
        pure (acc ++ (← packU32 bs.length) ++ bs)
      else do
        pure (acc ++ (← applyEncoder f.type_oid v))) init

/-- The payload of `ErrorResponse.encode` (backend.py lines 282–289): three
`(tag, cstring)` pairs `S`, `C`, `M`, then a terminating NUL. -/
def errorData (severity code message : String) : List ℕ :=
  (83 :: utf8Bytes severity ++ [0]) ++ (67 :: utf8Bytes code ++ [0])
    ++ (77 :: utf8Bytes message ++ [0]) ++ [0]

/-- Method `BackendMessage.encode` for every variant (backend.py lines 198–345):
1-byte tag, `struct.pack('>I', length)` length field, payload. -/
def encodeBackend : BackendMessage → Except PyErr (List ℕ)
  | .authenticationOk => do pure (82 :: (← packU32 8) ++ (← packU32 0))
  | .backendKeyData pid key => do
    pure (75 :: (← packU32 12) ++ (← packU32 pid) ++ (← packU32 key))
  | .readyForQuery status => do pure (90 :: (← packU32 5) ++ (← packU8 status))
  | .rowDescription fields => do
    let data ← rowDescData fields
    let lb ← packU32 (4 + data.length)
    pure (84 :: lb ++ data)
  | .dataRow values fields te => do
    let data ← dataRowData values fields te
    let lb ← packU32 (4 + data.length)
    pure (68 :: lb ++ data)
  | .errorResponse severity code message => do
    let data ← (Except.ok (errorData severity code message) : Except PyErr (List ℕ))
    let lb ← packU32 (4 + data.length)
    pure (69 :: lb ++ data)
  | .commandComplete rows command => do
    let data ← (Except.ok (cstring (command ++ " " ++ toString rows)) : Except PyErr (List ℕ))
    let lb ← packU32 (4 + data.length)
    pure (67 :: lb ++ data)
  | .parameterStatus name value => do
    let data ← (Except.ok (cstring name ++ cstring value) : Except PyErr (List ℕ))
    let lb ← packU32 (4 + data.length)
    pure (83 :: lb ++ data)
  | .parseComplete => do pure (49 :: (← packU32 4))
  | .parameterDescription => do pure (116 :: (← packU32 6) ++ (← packU16 0))
  | .bindComplete => do pure (50 :: (← packU32 4))
  | .emptyQueryResponse => do pure (73 :: (← packU32 4))
structure StartupMessage where
  protocol : ℕ
  parameters : List (String × String)
  deriving DecidableEq, Repr

inductive FrontendMsg where
  | sslRequest
  | startup (m : StartupMessage)
  | query (q : String)
  | parse (p : String)
  | bind (name : String)
  | describe (name : String)
  | flush
  | sync
  | execute
  | terminate
  deriving DecidableEq, Repr

/-! ## The SELECT regex (handler.py line 69)

`re.match(r'SELECT\s+(.+?)\s+FROM\s+(\w+)', query.upper())`, embedded as a
direct backtracking matcher for this fixed pattern.  Priorities follow the
`re` engine: the `\s+` after `SELECT` is greedy (longest whitespace run
first), the group `(.+?)` is lazy (shortest first), and since `FROM` starts
with a non-space character, `\s+FROM` matches exactly a maximal whitespace
run followed by the literal; likewise `\s+(\w+)` takes a maximal whitespace
run then a maximal non-empty word-character run. -/

/-- Python `\w` on ASCII input: letters, digits and underscore. -/
def isPyWord (c : Char) : Bool :=
  c.isAlphanum || c == '_'

/-- Length of the maximal leading run satisfying `p`. -/
def countLeading (p : Char → Bool) : List Char → ℕ
  | [] => 0
  | c :: cs => if p c then countLeading p cs + 1 else 0

/-- Match `\s+FROM\s+(\w+)` at the start of `l`; return the second capture
group (the table name). -/
def matchTailFrom (l : List Char) : Option (List Char) :=
  let n := countLeading isPySpace l
  if n == 0 then none
  else
    let l1 := l.drop n
    if l1.take 4 == ['F', 'R', 'O', 'M'] then
      let l2 := l1.drop 4
      let m := countLeading isPySpace l2
      if m == 0 then none
      else
        let g2 := (l2.drop m).takeWhile isPyWord
        if g2.isEmpty then none else some g2
    else none

/-- Python `re.match(r'SELECT\s+(.+?)\s+FROM\s+(\w+)', s)`: `none` on no match,
otherwise the two capture groups `(columns_str, table_name)`. -/
def pgSelectMatch (s : String) : Option (String × String) :=
  let cs := s.data
  if cs.take 6 == "SELECT".data then
    let rest := cs.drop 6
    let wmax := countLeading isPySpace rest
    (List.range wmax).findSome? (fun i =>
      let afterW := rest.drop (wmax - i)
      (List.range afterW.length).findSome? (fun j =>
        let grp1 := afterW.take (j + 1)
        if grp1.all (· != '\n') then
          match matchTailFrom (afterW.drop (j + 1)) with
          | some g2 => some (String.mk grp1, String.mk g2)
          | none => none
        else none))
  else none

/-- Python's substring test `needle in hay` for `str`. -/
def strIn (needle hay : String) : Bool :=
  (List.range (hay.data.length + 1)).any
    (fun i => (hay.data.drop i).take needle.data.length == needle.data)

/-! ## The handler (handler.py `GeneratorHandler`) -/

/-- A row as produced by `dataclasses.asdict`: ordered field-name/value pairs. -/
def PyRow : Type := List (String × Value)

/-- Python `row_dict.get(key)`: the value, or `None` when the key is absent. -/
def pyDictGet (row : PyRow) (key : String) : Value :=
  match row.find? (fun p => p.1 == key) with
  | some p => p.2
  | none => Value.null

/-- The list `self.fields` as built in `GeneratorHandler.__init__` (handler.py
lines 38–40): `to_sqltype(ii, field_name)` over the (lowered) column names. -/
def handlerFields (columns : List String) : List FieldDesc :=
  columns.enum.map (fun p => to_sqltype none none p.1 p.2)

/-- The handler state fixed at construction: the declared table name (`None`
unless an annotated class was given), the lowered column names, the adapter
row factory, and the field descriptors. -/
structure Handler where
  table_name : Option String
  columns : List String
  factory : Option String → List PyRow
  fields : List FieldDesc

/-- handler.py line 61 evaluates `DataRow(row_values)`.  `DataRow.__init__`
(backend.py line 249) has three required positional parameters
`(values, fields, text_encoding)`, so CPython raises
`TypeError: __init__() missing 2 required positional arguments: 'fields' and
'text_encoding'` at this call, before any message is produced. -/
def DataRow_call1 (_row_values : List Value) : Except PyErr BackendMessage :=
  Except.error .typeError

/-- Method `GeneratorHandler._data_to_messages` (handler.py lines 49–65). -/
def _data_to_messages (h : Handler) (sql : Option String) :
    Except PyErr (List BackendMessage) := do
  let rowsData : List (List Value) := (h.factory sql).map
    (fun row => h.columns.map (fun col => pyDictGet row (pyLower col)))
  let msgs ← rowsData.foldlM
    (fun acc rv => do pure (acc ++ [← DataRow_call1 rv]))
    [BackendMessage.rowDescription h.fields]
  pure (msgs ++ [.commandComplete rowsData.length "SELECT", .readyForQuery 73])

/-- Method `GeneratorHandler._handle_select` (handler.py lines 67–80): regex parse,
lower-case the table name, fail when a declared table name is truthy and not
a substring of the requested one (`self.table_name not in table_name`). -/
def _handle_select (h : Handler) (query : String) : Except PyErr (List BackendMessage) :=
  match pgSelectMatch (pyUpper query) with
  | none => .error .valueError
  | some (_columns_str, tbl) =>
    let table_name := pyLower tbl
    if (match h.table_name with
        | some tn => !(tn == "") && !(strIn tn table_name)
        | none => false) then
      .error .valueError
    else
      _data_to_messages h (some query)

/-- Method `GeneratorHandler.handle_query` (handler.py lines 42–47): strip/upper the
query, dispatch SELECTs, raise `NotImplementedError` otherwise. -/
def handle_query (h : Handler) (q : String) : Except PyErr (List BackendMessage) :=
  if pyStartsWith (pyUpper (pyStrip q)) "SELECT" then _handle_select h q
  else .error .notImplementedError

/-- Method `GeneratorHandler.handle_parse` (handler.py lines 92–98). -/
def handle_parse (h : Handler) : List BackendMessage :=
  [.parseComplete, .parameterDescription, .rowDescription h.fields]

/-- Method `GeneratorHandler.handle_bind` (handler.py lines 82–84). -/
def handle_bind (_h : Handler) : List BackendMessage :=
  [.bindComplete]

/-- Method `GeneratorHandler.handle_execute` (handler.py lines 86–90). -/
def handle_execute (h : Handler) : Except PyErr (List BackendMessage) :=
  _data_to_messages h none

/-- Method `GeneratorHandler.handle_startup` (handler.py lines 104–114): the fixed
seven-message startup response, independent of the handler and the message. -/
def handle_startup (_h : Handler) (_msg : StartupMessage) : List BackendMessage :=
  [.authenticationOk,
   .parameterStatus "server_version" "9.2",
   .parameterStatus "server_encoding" "UTF8",
   .parameterStatus "client_encoding" "UTF8",
   .parameterStatus "DateStyle" "ISO YMB",
   .backendKeyData 1 2,
   .readyForQuery 73]

/-! ## The server dispatch (server.py `PostgresProtocol._handle_message`) -/

/-- The `for response in responses: self.transport.write(response.encode())`
loop: encode and write each message; an exception from `encode` aborts the
loop (further messages are not written) and closes the transport. -/
def writeResponses : List BackendMessage → List (List ℕ) → List (List ℕ) × Bool
  | [], acc => (acc, false)
  | r :: rs, acc =>
    match encodeBackend r with
    | .ok bs => writeResponses rs (acc ++ [bs])
    | .error _ => (acc, true)

/-- The tail of `_handle_message`: write the response bytes (a raised
exception — `.error` — is caught: nothing is written and the transport is
closed), then close if the message was `Terminate`. -/
def serverRespond (responses : Except PyErr (List BackendMessage)) (closeAfter : Bool) :
    List (List ℕ) × Bool :=
  match responses with
  | .error _ => ([], true)
  | .ok msgs =>
    match writeResponses msgs [] with
    | (written, true) => (written, true)
    | (written, false) => (written, closeAfter)

/-- Method `PostgresProtocol._handle_message` (server.py lines 46–77): the byte
strings written to the transport, in order, and whether the transport was
closed.  `SSLRequest` writes the single byte `'N'`; `Flush` writes nothing;
`Sync` and `Describe` match no `isinstance` branch, so `responses` stays
empty; `Terminate` writes `ReadyForQuery` then closes; any exception from a
handler or from `encode` is caught by the `except` clause, which writes
nothing further and closes the transport. -/
def handle_message (h : Handler) (m : FrontendMsg) : List (List ℕ) × Bool :=
  match m with
  | .sslRequest => ([[78]], false)
  | .flush => ([], false)
  | .startup s => serverRespond (.ok (handle_startup h s)) false
  | .query q => serverRespond (handle_query h q) false
  | .parse _ => serverRespond (.ok (handle_parse h)) false
  | .bind _ => serverRespond (.ok (handle_bind h)) false
  | .describe _ => serverRespond (.ok []) false
  | .sync => serverRespond (.ok []) false
  | .execute => serverRespond (handle_execute h) false
  | .terminate => serverRespond (.ok [.readyForQuery 73]) true

/-! ## A concrete handler: `ContainerHandler(USER_DATA)` (fake_db.py), with
the IEEE-float `balance` column omitted (floats are outside this embedding) -/

def userRow (id : ℤ) (name : String) (age : ℤ) (interest : Dec) : PyRow :=
  [("id", .int id), ("name", .text name), ("age", .int age), ("interest", .dec interest)]

def usersHandler : Handler :=
  { table_name := none,
    columns := ["id", "name", "age", "interest"],
    factory := fun _ =>
      [userRow 1 "John" 30 ⟨false, 350, -2, false, false⟩,
       userRow 2 "Jane" 25 ⟨false, 4125, -3, false, false⟩,
       userRow 3 "Joe" 78 ⟨false, 0, 0, false, false⟩],
    fields := handlerFields ["id", "name", "age", "interest"] }

/-- A handler constructed with an annotated class, whose declared table name
is `"users"` (handler.py lines 17–23 when `cls` is given). -/
def usersDeclaredHandler : Handler :=
  { usersHandler with table_name := some "users" }
/-! ## The frontend decoder (frontend.py `FrontendDecoder`) -/

/-- The decoder's mutable state (frontend.py lines 55–57). -/
structure DecoderState where
  startup_seen : Bool
  ssl_negotiated : Bool
  deriving DecidableEq, Repr

/-- One `decode` call's outcome: `needMore` models `return None` (reached
before any state assignment, so the state is unchanged); `msg` carries the
returned `(message, consumed)` pair (`message` is `none` for the
unknown-tag `return None, consumed` path) together with the state after the
call; `raise` models an escaping exception. -/
inductive DecodeResult where
  | needMore
  | msg (m : Option FrontendMsg) (consumed : ℕ) (st : DecoderState)
  | raise (e : PyErr)
  deriving DecidableEq, Repr

/-- Strict UTF-8 decoding of a byte list, as `bytes.decode('utf-8')`:
rejects stray/missing continuation bytes, overlong forms, surrogates and
code points above `0x10FFFF`. -/
def utf8Decode : List ℕ → Option (List Char)
  | [] => some []
  | b :: rest =>
    if b < 0x80 then
      match utf8Decode rest with
      | some cs => some (Char.ofNat b :: cs)
      | none => none
    else if 0xC2 ≤ b ∧ b < 0xE0 then
      match rest with
      | c1 :: rest2 =>
        if 0x80 ≤ c1 ∧ c1 < 0xC0 then
          match utf8Decode rest2 with
          | some cs => some (Char.ofNat ((b - 0xC0) * 64 + (c1 - 0x80)) :: cs)
          | none => none
        else none
      | [] => none
    else if 0xE0 ≤ b ∧ b < 0xF0 then
      match rest with
      | c1 :: c2 :: rest2 =>
        if (0x80 ≤ c1 ∧ c1 < 0xC0) ∧ (0x80 ≤ c2 ∧ c2 < 0xC0) then
          let n := (b - 0xE0) * 4096 + (c1 - 0x80) * 64 + (c2 - 0x80)
          if 0x800 ≤ n ∧ ¬(0xD800 ≤ n ∧ n ≤ 0xDFFF) then
            match utf8Decode rest2 with
            | some cs => some (Char.ofNat n :: cs)
            | none => none
          else none
        else none
      | _ => none
    else if 0xF0 ≤ b ∧ b < 0xF5 then
      match rest with
      | c1 :: c2 :: c3 :: rest2 =>
        if (0x80 ≤ c1 ∧ c1 < 0xC0) ∧ (0x80 ≤ c2 ∧ c2 < 0xC0) ∧ (0x80 ≤ c3 ∧ c3 < 0xC0) then
          let n := (b - 0xF0) * 262144 + (c1 - 0x80) * 4096 + (c2 - 0x80) * 64 + (c3 - 0x80)
          if 0x10000 ≤ n ∧ n ≤ 0x10FFFF then
            match utf8Decode rest2 with
            | some cs => some (Char.ofNat n :: cs)
            | none => none
          else none
        else none
      | _ => none
    else none

/-- Method `FrontendDecoder._read_cstring` (frontend.py lines 131–135): decode up to
the first NUL, or the whole buffer when there is none. -/
def _read_cstring (data : List ℕ) : Except PyErr String :=
  match utf8Decode (data.takeWhile (· != 0)) with
  | some cs => .ok (String.mk cs)
  | none => .error .unicodeDecodeError

/-- Python `struct.unpack('>I', l)`: requires exactly 4 bytes. -/
def unpackU32 (l : List ℕ) : Except PyErr ℕ :=
  match l with
  | [a, b, c, d] => .ok (((a * 256 + b) * 256 + c) * 256 + d)
  | _ => .error .structError

/-- The loop body of `FrontendDecoder._read_cstring_map` (frontend.py
lines 118–129), with fuel bounding the iteration count (the index advances by
at least 2 per iteration, so `data.length + 1` fuel always suffices).  The
result lists the key/value pairs in read order. -/
def _read_cstring_map_aux : ℕ → List ℕ → ℕ → List (String × String) →
    Except PyErr (List (String × String))
  | 0, _, _, acc => .ok acc
  | fuel + 1, data, i, acc =>
    if i < data.length then do
      let key ← _read_cstring (data.drop i)
      if key == "" then .ok acc
      else
        let i2 := i + key.length + 1
        let value ← _read_cstring (data.drop i2)
        _read_cstring_map_aux fuel data (i2 + value.length + 1) (acc ++ [(key, value)])
    else .ok acc

/-- Method `FrontendDecoder._read_cstring_map` (frontend.py lines 118–129). -/
def _read_cstring_map (data : List ℕ) : Except PyErr (List (String × String)) :=
  _read_cstring_map_aux (data.length + 1) data 0 []

/-- Method `FrontendDecoder.decode` (frontend.py lines 59–116).  Pre-startup:
`length(4) protocol(4)`; post-startup: `tag(1) length(4) payload`.  Note the
top guard only requires 4 buffered bytes, while the post-startup header read
`struct.unpack('>I', data[1:5])` needs 5: with exactly 4 buffered bytes the
slice has 3 bytes and `unpack` raises `struct.error`. -/
def decode (st : DecoderState) (data : List ℕ) : DecodeResult :=
  if data.length < 4 then .needMore
  else if !st.startup_seen then
    match unpackU32 (data.take 4) with
    | .error e => .raise e
    | .ok length =>
      if data.length < length then .needMore
      else
        match unpackU32 ((data.drop 4).take 4) with
        | .error e => .raise e
        | .ok protocol =>
          if protocol = 80877103 then
            .msg (some .sslRequest) length { st with ssl_negotiated := true }
          else if protocol = 196608 then
            match _read_cstring_map (data.drop 8) with
            | .error e => .raise e
            | .ok params =>
              .msg (some (.startup ⟨protocol, params⟩)) length { st with startup_seen := true }
          else if protocol = 80877102 then .raise .notImplementedError
          else .raise .valueError
  else
    let message_type := data.take 1
    match unpackU32 ((data.drop 1).take 4) with
    | .error e => .raise e
    | .ok length =>
      if data.length < 1 + length then .needMore
      else
        let payload := (data.drop 5).take (1 + length - 5)
        let consumed := 1 + length
        if message_type == [81] then
          match _read_cstring payload with
          | .ok q => .msg (some (.query q)) consumed st
          | .error e => .raise e
        else if message_type == [80] then
          match _read_cstring payload with
          | .ok p => .msg (some (.parse p)) consumed st
          | .error e => .raise e
        else if message_type == [66] then .msg (some (.bind "")) consumed st
        else if message_type == [68] then
          match _read_cstring (payload.drop 1) with
          | .ok name => .msg (some (.describe name)) consumed st
          | .error e => .raise e
        else if message_type == [72] then .msg (some .flush) consumed st
        else if message_type == [83] then .msg (some .sync) consumed st
        else if message_type == [69] then .msg (some .execute) consumed st
        else if message_type == [88] then .msg (some .terminate) consumed st
        else .msg none consumed st

/-! ## Theorems -/

theorem stripTrailingZeros_cons (d : ℕ) (ds : List ℕ) :
    stripTrailingZeros (d :: ds) =
      if stripTrailingZeros ds = [] then (if d = 0 then [] else [d])
      else d :: stripTrailingZeros ds := rfl

theorem decodeVal_nil (w : ℤ) : decodeVal [] w = 0 := rfl

theorem decodeVal_cons (d : ℕ) (ds : List ℕ) (w : ℤ) :
    decodeVal (d :: ds) w = (d : ℚ) * (10000 : ℚ) ^ w + decodeVal ds (w - 1) := rfl

/-- Evaluating `decodeVal` on a big-endian digit list is its little-endian `Nat.ofDigits`
value scaled to the position of the last digit. -/
theorem decodeVal_eq_ofDigits (l : List ℕ) (w : ℤ) :
    decodeVal l w = ((Nat.ofDigits 10000 l.reverse : ℕ) : ℚ) *
      (10000 : ℚ) ^ (w - l.length + 1) := by
  induction l generalizing w with
  | nil => simp [decodeVal]
  | cons d ds ih =>
    rw [decodeVal_cons, ih]
    have hne : (10000 : ℚ) ≠ 0 := by norm_num
    have hrev : (d :: ds).reverse = ds.reverse ++ [d] := by simp
    have hofd : (Nat.ofDigits 10000 (ds.reverse ++ [d]) : ℕ) =
        Nat.ofDigits 10000 ds.reverse + 10000 ^ ds.length * d := by
      rw [Nat.ofDigits_append, Nat.ofDigits_singleton, List.length_reverse]
    rw [hrev, hofd]
    have e1 : w - 1 - (ds.length : ℤ) + 1 = w - ds.length := by ring
    have e2 : w - ((d :: ds).length : ℤ) + 1 = w - ds.length := by
      push_cast [List.length_cons]
      ring
    rw [e1, e2]
    push_cast
    have e3 : (10000 : ℚ) ^ (ds.length : ℕ) * (10000 : ℚ) ^ (w - (ds.length : ℤ)) =
        (10000 : ℚ) ^ w := by
      rw [← zpow_natCast (10000 : ℚ) ds.length, ← zpow_add₀ hne]
      congr 1
      ring
    linear_combination (-(d : ℚ)) * e3

/-- Stripping leading zero groups while decrementing the weight preserves the
decoded value. -/
theorem decodeVal_stripLeadingZeros (l : List ℕ) (w : ℤ) :
    decodeVal (stripLeadingZeros l w).1 (stripLeadingZeros l w).2 = decodeVal l w := by
  induction l generalizing w with
  | nil => rfl
  | cons d ds ih =>
    cases d with
    | zero =>
      rw [show stripLeadingZeros (0 :: ds) w = stripLeadingZeros ds (w - 1) from rfl]
      rw [ih, decodeVal_cons]
      simp
    | succ n => rfl

/-- An all-zero digit list (one that strips to empty) decodes to 0. -/
theorem decodeVal_eq_zero_of_strip_nil (l : List ℕ) (w : ℤ)
    (h : stripTrailingZeros l = []) : decodeVal l w = 0 := by
  induction l generalizing w with
  | nil => rfl
  | cons d ds ih =>
    rw [stripTrailingZeros_cons] at h
    by_cases hds : stripTrailingZeros ds = []
    · rw [if_pos hds] at h
      by_cases hd : d = 0
      · subst hd
        rw [decodeVal_cons, ih (w - 1) hds]
        simp
      · rw [if_neg hd] at h
        exact absurd h (List.cons_ne_nil d [])
    · rw [if_neg hds] at h
      exact absurd h (List.cons_ne_nil _ _)

/-- Stripping trailing zero groups preserves the decoded value. -/
theorem decodeVal_stripTrailingZeros (l : List ℕ) (w : ℤ) :
    decodeVal (stripTrailingZeros l) w = decodeVal l w := by
  induction l generalizing w with
  | nil => rfl
  | cons d ds ih =>
    rw [stripTrailingZeros_cons]
    by_cases hds : stripTrailingZeros ds = []
    · rw [if_pos hds]
      by_cases hd : d = 0
      · subst hd
        rw [if_pos rfl, decodeVal_nil, decodeVal_cons,
          decodeVal_eq_zero_of_strip_nil ds (w - 1) hds]
        simp
      · rw [if_neg hd, decodeVal_cons, decodeVal_cons, decodeVal_nil,
          decodeVal_eq_zero_of_strip_nil ds (w - 1) hds]
    · rw [if_neg hds, decodeVal_cons, decodeVal_cons, ih]

/-- The whole strip phase (leading strip with weight adjustment, trailing
strip, weight forced to 0 on an empty result) preserves the decoded value. -/
theorem decode_strip (l : List ℕ) (w : ℤ) :
    decodeVal (stripTrailingZeros (stripLeadingZeros l w).1)
      (if stripTrailingZeros (stripLeadingZeros l w).1 = [] then 0
       else (stripLeadingZeros l w).2)
    = decodeVal l w := by
  by_cases h : stripTrailingZeros (stripLeadingZeros l w).1 = []
  · rw [if_pos h, h, decodeVal_nil, ← decodeVal_stripLeadingZeros l w,
      ← decodeVal_stripTrailingZeros, h, decodeVal_nil]
  · rw [if_neg h, decodeVal_stripTrailingZeros, decodeVal_stripLeadingZeros]

/-- Padding by `10^pad` with `pad = 4·⌈ds/4⌉ − ds` and rescaling by
`10000^(−⌈ds/4⌉)` is exactly division by `10^ds`. -/
theorem pow_pad_cancel (ds : ℕ) :
    (10 : ℚ) ^ ((ds + 3) / 4 * 4 - ds : ℕ) * (10000 : ℚ) ^ (-(((ds + 3) / 4 : ℕ) : ℤ))
      = (10 : ℚ) ^ (-(ds : ℤ)) := by
  have hne : (10 : ℚ) ≠ 0 := by norm_num
  have h4 : (10000 : ℚ) = (10 : ℚ) ^ ((4 : ℕ) : ℤ) := by norm_num
  rw [h4, ← zpow_mul, ← zpow_natCast (10 : ℚ) ((ds + 3) / 4 * 4 - ds), ← zpow_add₀ hne]
  congr 1
  omega

theorem numericFieldsCore_sign (sc c0 ds : ℕ) :
    (numericFieldsCore sc c0 ds).sign = if c0 = 0 then 0 else sc := rfl

/-- The sign code `0x4000`/`0x0000` decodes to the sign of the Decimal. -/
theorem signFactor_code (neg : Bool) :
    signFactor (if neg then 0x4000 else 0x0000) = if neg then -1 else 1 := by
  cases neg <;> simp [signFactor]

theorem numericFieldsCore_dscale (sc c0 ds : ℕ) :
    (numericFieldsCore sc c0 ds).dscale = ds := rfl

/-- Decoding the digit list emitted by the core pipeline under the spec's
semantics yields exactly `coefficient / 10^dscale`. -/
theorem numericFieldsCore_decode (sc c0 ds : ℕ) :
    decodeVal (numericFieldsCore sc c0 ds).digits (numericFieldsCore sc c0 ds).weight
      = (c0 : ℚ) * (10 : ℚ) ^ (-(ds : ℤ)) := by
  show decodeVal
      (stripTrailingZeros
        (stripLeadingZeros ((Nat.digits 10000 (c0 * 10 ^ ((ds + 3) / 4 * 4 - ds))).reverse)
          (if (Nat.digits 10000 (c0 * 10 ^ ((ds + 3) / 4 * 4 - ds))).reverse = [] then 0
           else ((Nat.digits 10000 (c0 * 10 ^ ((ds + 3) / 4 * 4 - ds))).reverse.length : ℤ)
             - ((ds + 3) / 4 : ℕ) - 1)).1)
      (if stripTrailingZeros
          (stripLeadingZeros ((Nat.digits 10000 (c0 * 10 ^ ((ds + 3) / 4 * 4 - ds))).reverse)
            (if (Nat.digits 10000 (c0 * 10 ^ ((ds + 3) / 4 * 4 - ds))).reverse = [] then 0
             else ((Nat.digits 10000 (c0 * 10 ^ ((ds + 3) / 4 * 4 - ds))).reverse.length : ℤ)
               - ((ds + 3) / 4 : ℕ) - 1)).1 = [] then 0
       else (stripLeadingZeros ((Nat.digits 10000 (c0 * 10 ^ ((ds + 3) / 4 * 4 - ds))).reverse)
          (if (Nat.digits 10000 (c0 * 10 ^ ((ds + 3) / 4 * 4 - ds))).reverse = [] then 0
           else ((Nat.digits 10000 (c0 * 10 ^ ((ds + 3) / 4 * 4 - ds))).reverse.length : ℤ)
             - ((ds + 3) / 4 : ℕ) - 1)).2)
      = (c0 : ℚ) * (10 : ℚ) ^ (-(ds : ℤ))
  rw [decode_strip]
  by_cases hca : c0 * 10 ^ ((ds + 3) / 4 * 4 - ds) = 0
  · have hc0 : c0 = 0 := by
      rcases Nat.mul_eq_zero.mp hca with h | h
      · exact h
      · exact absurd h (by positivity)
    rw [hca]
    simp [Nat.digits_zero, decodeVal_nil, hc0]
  · have hD : (Nat.digits 10000 (c0 * 10 ^ ((ds + 3) / 4 * 4 - ds))).reverse ≠ [] := by
      simp only [ne_eq, List.reverse_eq_nil_iff]
      exact Nat.digits_ne_nil_iff_ne_zero.mpr hca
    rw [if_neg hD, decodeVal_eq_ofDigits, List.reverse_reverse, Nat.ofDigits_digits]
    have hexp :
        ((Nat.digits 10000 (c0 * 10 ^ ((ds + 3) / 4 * 4 - ds))).reverse.length : ℤ)
            - ((ds + 3) / 4 : ℕ) - 1
            - (Nat.digits 10000 (c0 * 10 ^ ((ds + 3) / 4 * 4 - ds))).reverse.length + 1
          = -(((ds + 3) / 4 : ℕ) : ℤ) := by ring
    rw [hexp, Nat.cast_mul, Nat.cast_pow, Nat.cast_ofNat, mul_assoc, pow_pad_cancel ds]

/-- CLAIM C1. For every finite Decimal `(neg, coeff, exp)` (semantic value
`(-1)^neg × coeff × 10^exp`), the header and base-10000 digit list computed by
`_encode_numeric` decode, under the semantics
`sign × Σ digits[i] × 10000^(weight − i)`, to a rational equal to the Decimal's
value, and the emitted `dscale` field equals `max(0, −exp)`. -/
theorem numeric_encoder_correct (neg : Bool) (coeff : ℕ) (exp : ℤ) :
    signFactor (numericFields neg coeff exp).sign *
        decodeVal (numericFields neg coeff exp).digits (numericFields neg coeff exp).weight
      = decValue neg coeff exp
    ∧ ((numericFields neg coeff exp).dscale : ℤ) = max 0 (-exp) := by
  constructor
  · unfold numericFields
    rw [numericFieldsCore_decode, numericFieldsCore_sign]
    by_cases hexp : 0 ≤ exp
    · simp only [if_pos hexp]
      have hnat : ((exp.toNat : ℕ) : ℤ) = exp := Int.toNat_of_nonneg hexp
      by_cases hc : coeff * 10 ^ exp.toNat = 0
      · have hc0 : coeff = 0 := by
          rcases Nat.mul_eq_zero.mp hc with h | h
          · exact h
          · exact absurd h (by positivity)
        rw [if_pos hc, hc0]
        simp [signFactor, decValue]
      · have hz : (10 : ℚ) ^ exp = (10 : ℚ) ^ (exp.toNat : ℕ) := by
          rw [← zpow_natCast (10 : ℚ) exp.toNat, hnat]
        rw [if_neg hc, signFactor_code, decValue, hz]
        simp only [Nat.cast_zero, neg_zero, zpow_zero, mul_one]
        push_cast
        ring
    · simp only [if_neg hexp]
      have hnat : (((-exp).toNat : ℕ) : ℤ) = -exp := Int.toNat_of_nonneg (by omega)
      have hz : (10 : ℚ) ^ exp = (10 : ℚ) ^ (-(((-exp).toNat : ℕ) : ℤ)) := by
        rw [hnat]
        simp
      by_cases hc : coeff = 0
      · rw [if_pos hc, hc]
        simp [signFactor, decValue]
      · rw [if_neg hc, signFactor_code, decValue, hz]
        ring
  · unfold numericFields
    rw [numericFieldsCore_dscale]
    by_cases hexp : 0 ≤ exp
    · rw [if_pos hexp]
      omega
    · rw [if_neg hexp]
      omega

/-! ## Framing invariant (CLAIM C3) -/

theorem ok_bind {α β : Type} (a : α) (f : α → Except PyErr β) :
    (Except.ok a >>= f) = f a := rfl

theorem error_bind {α β : Type} (e : PyErr) (f : α → Except PyErr β) :
    ((Except.error e : Except PyErr α) >>= f) = Except.error e := rfl

theorem u32be_length (n : ℕ) : (u32be n).length = 4 := rfl

/-- Any encoder of the shape "compute `data`, pack `4 + len(data)` as the
length field, emit `tag :: length ++ data`" satisfies the framing invariant
whenever it succeeds. -/
theorem framed_spec (tag : ℕ) (pl : Except PyErr (List ℕ)) (bs : List ℕ)
    (h : (do
        let data ← pl
        let lb ← packU32 (4 + data.length)
        pure (tag :: lb ++ data) : Except PyErr (List ℕ)) = .ok bs) :
    ∃ payload : List ℕ, bs = tag :: u32be (4 + payload.length) ++ payload ∧
      4 + payload.length < 2 ^ 32 := by
  cases pl with
  | error e => rw [error_bind] at h; exact absurd h (by simp)
  | ok data =>
    rw [ok_bind] at h
    unfold packU32 at h
    split at h
    · rw [ok_bind] at h
      refine ⟨data, ?_, by assumption⟩
      have := Except.ok.inj h
      exact this.symm
    · exact absurd h (by simp [error_bind])

theorem pure_eq_ok {α : Type} (a : α) : (pure a : Except PyErr α) = Except.ok a := rfl

/-- CLAIM C3.  For every backend message variant and every argument, the byte
string produced by `encode` is a 1-byte tag followed by a 4-byte big-endian
length field whose value equals 4 plus the payload byte count (the length
counts itself and the payload but not the tag). -/
theorem backend_length_field (m : BackendMessage) (bs : List ℕ)
    (h : encodeBackend m = .ok bs) :
    ∃ tag payload, bs = tag :: u32be (4 + payload.length) ++ payload ∧
      4 + payload.length < 2 ^ 32 := by
  cases m with
  | authenticationOk =>
    rw [show encodeBackend .authenticationOk = Except.ok [82, 0, 0, 0, 8, 0, 0, 0, 0]
      from rfl] at h
    obtain rfl := Except.ok.inj h
    exact ⟨82, [0, 0, 0, 0], by decide, by decide⟩
  | backendKeyData pid key =>
    rw [show encodeBackend (.backendKeyData pid key)
        = (do pure (75 :: (← packU32 12) ++ (← packU32 pid) ++ (← packU32 key))
            : Except PyErr (List ℕ)) from rfl,
      show packU32 12 = Except.ok (u32be 12) from rfl, ok_bind] at h
    unfold packU32 at h
    split at h
    · rw [ok_bind] at h
      split at h
      · rw [ok_bind, pure_eq_ok] at h
        obtain rfl := Except.ok.inj h
        refine ⟨75, u32be pid ++ u32be key, ?_, by norm_num [List.length_append, u32be_length]⟩
        simp [List.length_append, u32be_length, List.append_assoc]
      · rw [error_bind] at h
        exact absurd h (by simp)
    · rw [error_bind] at h
      exact absurd h (by simp)
  | readyForQuery status =>
    rw [show encodeBackend (.readyForQuery status)
        = (do pure (90 :: (← packU32 5) ++ (← packU8 status)) : Except PyErr (List ℕ))
        from rfl,
      show packU32 5 = Except.ok (u32be 5) from rfl, ok_bind] at h
    unfold packU8 at h
    split at h
    · rw [ok_bind, pure_eq_ok] at h
      obtain rfl := Except.ok.inj h
      exact ⟨90, [status], by norm_num [u32be], by norm_num⟩
    · rw [error_bind] at h
      exact absurd h (by simp)
  | rowDescription fields =>
    obtain ⟨p, h1, h2⟩ := framed_spec 84 (rowDescData fields) bs h
    exact ⟨84, p, h1, h2⟩
  | dataRow values fields te =>
    obtain ⟨p, h1, h2⟩ := framed_spec 68 (dataRowData values fields te) bs h
    exact ⟨68, p, h1, h2⟩
  | errorResponse severity code message =>
    obtain ⟨p, h1, h2⟩ := framed_spec 69 (Except.ok (errorData severity code message)) bs h
    exact ⟨69, p, h1, h2⟩
  | commandComplete rows command =>
    obtain ⟨p, h1, h2⟩ :=
      framed_spec 67 (Except.ok (cstring (command ++ " " ++ toString rows))) bs h
    exact ⟨67, p, h1, h2⟩
  | parameterStatus name value =>
    obtain ⟨p, h1, h2⟩ := framed_spec 83 (Except.ok (cstring name ++ cstring value)) bs h
    exact ⟨83, p, h1, h2⟩
  | parseComplete =>
    rw [show encodeBackend .parseComplete = Except.ok [49, 0, 0, 0, 4] from rfl] at h
    obtain rfl := Except.ok.inj h
    exact ⟨49, [], by decide, by decide⟩
  | parameterDescription =>
    rw [show encodeBackend .parameterDescription = Except.ok [116, 0, 0, 0, 6, 0, 0]
      from rfl] at h
    obtain rfl := Except.ok.inj h
    exact ⟨116, [0, 0], by decide, by decide⟩
  | bindComplete =>
    rw [show encodeBackend .bindComplete = Except.ok [50, 0, 0, 0, 4] from rfl] at h
    obtain rfl := Except.ok.inj h
    exact ⟨50, [], by decide, by decide⟩
  | emptyQueryResponse =>
    rw [show encodeBackend .emptyQueryResponse = Except.ok [73, 0, 0, 0, 4] from rfl] at h
    obtain rfl := Except.ok.inj h
    exact ⟨73, [], by decide, by decide⟩

/-- Witness for C3: the framing theorem applied at the concrete message
`ParseComplete`, whose encoding is `31 00 00 00 04`. -/
theorem backend_length_field_witness :
    encodeBackend .parseComplete = .ok [49, 0, 0, 0, 4] ∧
      ∃ tag payload, [49, 0, 0, 0, 4] = tag :: u32be (4 + payload.length) ++ payload ∧
        4 + payload.length < 2 ^ 32 :=
  ⟨rfl, backend_length_field .parseComplete [49, 0, 0, 0, 4] rfl⟩


/-! ## Claim theorems for the NUMERIC byte encoder, DataRow nulls, startup,
queries and the server dispatch -/

/-- CLAIM C2 (behaviour at the failing input and at infinity).
Infinity is rejected with `ValueError` as claimed, but NaN is *not* encoded as
the 8-byte header `ndigits=0, weight=0, sign=0xC000, dscale=0`: the NaN branch
packs `0xC000 = 49152` with the signed `'>h'` format, which CPython rejects,
so `_encode_numeric(Decimal('NaN'))` raises `struct.error`. -/
theorem numeric_nan_raises_struct_error :
    _encode_numeric ⟨false, 0, 0, true, false⟩ = .error .structError ∧
      _encode_numeric ⟨false, 0, 0, false, true⟩ = .error .valueError :=
  ⟨rfl, rfl⟩

/-- CLAIM C4.  For every handler and every StartupMessage, `handle_startup`
returns exactly the seven messages `AuthenticationOk`,
`ParameterStatus("server_version","9.2")`,
`ParameterStatus("server_encoding","UTF8")`,
`ParameterStatus("client_encoding","UTF8")`,
`ParameterStatus("DateStyle","ISO YMB")`, `BackendKeyData(1,2)`,
`ReadyForQuery('I')`, in this order. -/
theorem startup_sequence (h : Handler) (m : StartupMessage) :
    handle_startup h m =
      [.authenticationOk,
       .parameterStatus "server_version" "9.2",
       .parameterStatus "server_encoding" "UTF8",
       .parameterStatus "client_encoding" "UTF8",
       .parameterStatus "DateStyle" "ISO YMB",
       .backendKeyData 1 2,
       .readyForQuery 73] := rfl

/-- CLAIM C5 (behaviour at the failing input).  A well-formed
`SELECT <cols> FROM <table>` query against a handler with adapter rows does
*not* produce RowDescriptor/DataRow/CommandComplete/ReadyForQuery:
`_data_to_messages` calls `DataRow(row_values)` with one argument while
`DataRow.__init__` requires `(values, fields, text_encoding)`, so Python
raises `TypeError` at the first row and the server closes the transport
having written nothing. -/
theorem select_query_type_error :
    handle_query usersHandler "SELECT id, name FROM users" = .error .typeError ∧
      handle_message usersHandler (.query "SELECT id, name FROM users") = ([], true) := by
  constructor <;> rfl

/-- CLAIM C6 counterexample.  For the non-SELECT query
`UPDATE users SET age = 1`, the server writes *nothing* to the client — in
particular no ErrorResponse — and closes the transport: `handle_query` raises
`NotImplementedError` and `_handle_message`'s `except` clause just closes. -/
theorem update_query_writes_nothing :
    (handle_message usersHandler (.query "UPDATE users SET age = 1")).1 = [] ∧
      (handle_message usersHandler (.query "UPDATE users SET age = 1")).2 = true := by
  constructor <;> rfl

/-- CLAIM C6 as amended: for every handler and every Query whose
stripped-and-uppercased text does not start with `SELECT`, the handler raises
and the server closes the transport without sending any message (no
ErrorResponse is emitted). -/
theorem non_select_query_closes_silently (h : Handler) (q : String)
    (hq : pyStartsWith (pyUpper (pyStrip q)) "SELECT" = false) :
    handle_message h (.query q) = ([], true) := by
  have hr : handle_query h q = .error .notImplementedError := by
    unfold handle_query
    rw [hq]
    simp
  show serverRespond (handle_query h q) false = ([], true)
  rw [hr]
  rfl

/-- Witness for the amended C6 theorem at the concrete query
`UPDATE users SET age = 1`. -/
theorem non_select_query_closes_silently_witness :
    pyStartsWith (pyUpper (pyStrip "UPDATE users SET age = 1")) "SELECT" = false ∧
      handle_message usersHandler (.query "UPDATE users SET age = 1") = ([], true) :=
  ⟨rfl, non_select_query_closes_silently usersHandler "UPDATE users SET age = 1" rfl⟩

/-- CLAIM C8 (behaviour at the failing input).  A row containing a null value
is *not* encoded with an `FF FF FF FF` length field: `DataRow.encode` executes
`struct.pack('>I', -1)` with the unsigned `'>I'` format, which CPython rejects
with `struct.error`, so no bytes are produced for the row at all. -/
theorem datarow_null_raises :
    encodeBackend (.dataRow [.null, .int 1]
        [⟨"name", 0, 0, 25, -1, -1, 0⟩, ⟨"id", 0, 0, 23, 4, -1, 1⟩] false)
      = .error .structError := rfl

/-- CLAIM C9 counterexample.  With a declared table name `"users"` and the
query `SELECT id FROM accounts`, the client does *not* receive an
ErrorResponse: `_handle_select` raises `ValueError` and the server closes the
transport having written nothing. -/
theorem table_mismatch_writes_nothing :
    (handle_message usersDeclaredHandler (.query "SELECT id FROM accounts")).1 = [] ∧
      (handle_message usersDeclaredHandler (.query "SELECT id FROM accounts")).2 = true := by
  constructor <;> rfl

/-- CLAIM C9 as amended: whenever the handler has a (non-empty) declared table
name that is not a substring of the requested table name, the handler raises
`ValueError` and the server closes the transport without sending anything (no
ErrorResponse, no result set). -/
theorem table_mismatch_closes_silently (h : Handler) (q tn cols tbl : String)
    (htn : h.table_name = some tn) (hne : (tn == "") = false)
    (hsel : pyStartsWith (pyUpper (pyStrip q)) "SELECT" = true)
    (hm : pgSelectMatch (pyUpper q) = some (cols, tbl))
    (hmm : strIn tn (pyLower tbl) = false) :
    handle_message h (.query q) = ([], true) := by
  have hr : handle_query h q = .error .valueError := by
    unfold handle_query
    rw [hsel]
    simp only [if_true]
    unfold _handle_select
    rw [hm, htn]
    simp [hne, hmm]
  show serverRespond (handle_query h q) false = ([], true)
  rw [hr]
  rfl

/-- Witness for the amended C9 theorem at the concrete mismatching query. -/
theorem table_mismatch_closes_silently_witness :
    usersDeclaredHandler.table_name = some "users" ∧
      (("users" : String) == "") = false ∧
      pyStartsWith (pyUpper (pyStrip "SELECT id FROM accounts")) "SELECT" = true ∧
      pgSelectMatch (pyUpper "SELECT id FROM accounts") = some ("ID", "ACCOUNTS") ∧
      strIn "users" (pyLower "ACCOUNTS") = false ∧
      handle_message usersDeclaredHandler (.query "SELECT id FROM accounts") = ([], true) :=
  ⟨rfl, rfl, rfl, rfl, rfl,
    table_mismatch_closes_silently usersDeclaredHandler "SELECT id FROM accounts"
      "users" "ID" "ACCOUNTS" rfl rfl rfl rfl rfl⟩

/-- CLAIM C10.  The startup response is fully deterministic: for any two
handlers (connections) and any two StartupMessages, the written byte strings
and close flag are identical, and the sixth message is always
`BackendKeyData(pid=1, secret=2)`, so the key data never distinguishes a
connection. -/
theorem startup_deterministic (h₁ h₂ : Handler) (m₁ m₂ : StartupMessage) :
    handle_message h₁ (.startup m₁) = handle_message h₂ (.startup m₂) ∧
      (handle_startup h₁ m₁)[5]? = some (.backendKeyData 1 2) :=
  ⟨rfl, rfl⟩

/-- CLAIM C7 (behaviour at the failing input).  `Q\x00\x00\x00` — the first
4 bytes of the valid 8-byte Query message `Q\x00\x00\x00\x07hi\x00` — is a
proper prefix, yet post-startup `decode` *raises* `struct.error` instead of
returning "need more bytes": the guard admits 4 buffered bytes but
`struct.unpack('>I', data[1:5])` gets a 3-byte slice.  (A 5-byte prefix does
return "need more bytes", and the complete message decodes.) -/
theorem decoder_prefix_underflow_raises :
    decode ⟨true, false⟩ [81, 0, 0, 0] = .raise .structError ∧
      decode ⟨true, false⟩ [81, 0, 0, 0, 7] = .needMore ∧
      decode ⟨true, false⟩ [81, 0, 0, 0, 7, 104, 105, 0] =
        .msg (some (.query "hi")) 8 ⟨true, false⟩ := by
  refine ⟨rfl, rfl, rfl⟩

end PyPgWire
